import Mathlib

/-!
Shallow embedding of the homework-status polling bot (`homework.py`).
Python values are modelled by the inductive `Value`; functions that can
raise return `Except Err _`; the driver loop is modelled one iteration at
a time by `main_iteration`, with the external HTTP and chat collaborators
supplied as explicit inputs.
-/

/-- A Python value as it occurs in this program: `None`, booleans,
integers, strings, lists and string-keyed dicts. -/
inductive Value where
  | none : Value
  | bool (b : Bool) : Value
  | int (n : Int) : Value
  | str (s : String) : Value
  | list (xs : List Value) : Value
  | dict (entries : List (String × Value)) : Value

/-- Python type name, as it appears in interpreter error messages. -/
def Value.typeName : Value → String
  | .none => "NoneType"
  | .bool _ => "bool"
  | .int _ => "int"
  | .str _ => "str"
  | .list _ => "list"
  | .dict _ => "dict"

mutual

/-- Python `repr` of a value (strings single-quoted, as Python prefers). -/
def Value.pyRepr : Value → String
  | .none => "None"
  | .bool b => if b then "True" else "False"
  | .int n => toString n
  | .str s => "\x27" ++ s ++ "\x27"
  | .list xs => "[" ++ pyReprItems xs ++ "]"
  | .dict es => "\x7b" ++ pyReprEntries es ++ "\x7d"

/-- Comma-separated `repr`s of list items. -/
def pyReprItems : List Value → String
  | [] => ""
  | [x] => x.pyRepr
  | x :: y :: rest => x.pyRepr ++ ", " ++ pyReprItems (y :: rest)

/-- Comma-separated `repr`s of dict entries. -/
def pyReprEntries : List (String × Value) → String
  | [] => ""
  | [(k, v)] => "\x27" ++ k ++ "\x27: " ++ v.pyRepr
  | (k, v) :: e :: rest =>
      "\x27" ++ k ++ "\x27: " ++ v.pyRepr ++ ", " ++ pyReprEntries (e :: rest)

end

/-- Python `str()` of a value: the string itself for `str`, `repr`
otherwise (which coincides with `str` on these types). -/
def Value.pyStr : Value → String
  | .str s => s
  | v => v.pyRepr

/-- Whether the value is a dict (`isinstance(v, dict)`). -/
def Value.isDict : Value → Bool
  | .dict _ => true
  | _ => false

/-- Whether the value is a list (`isinstance(v, list)`). -/
def Value.isList : Value → Bool
  | .list _ => true
  | _ => false

/-- Whether the value is Python `None`. -/
def Value.isNoneV : Value → Bool
  | .none => true
  | _ => false

/-- `isinstance(v, int)`: true for ints and, because Python `bool` is a
subclass of `int`, for booleans too. -/
def Value.isIntLike : Value → Bool
  | .int _ => true
  | .bool _ => true
  | _ => false

/-- Numeric value of an int-like Python value (`True == 1`, `False == 0`). -/
def Value.asInt : Value → Int
  | .int n => n
  | .bool b => if b then 1 else 0
  | _ => 0

/-- Python key membership for a string key in a dict. -/
def Value.hasKey (v : Value) (k : String) : Bool :=
  match v with
  | .dict es => (es.lookup k).isSome
  | _ => false

/-- Python `dict.get(k)`: the stored value, `None` when the key is absent;
only meaningful on dicts. -/
def Value.dictGet (v : Value) (k : String) : Value :=
  match v with
  | .dict es => (es.lookup k).getD Value.none
  | _ => Value.none

/-- Python truthiness of a value. -/
def Value.truthy : Value → Bool
  | .none => false
  | .bool b => b
  | .int n => n != 0
  | .str s => s != ""
  | .list xs => !xs.isEmpty
  | .dict es => !es.isEmpty

/-- Python `len`, on the sized values of this model. -/
def Value.lenOrZero : Value → Nat
  | .list xs => xs.length
  | .str s => s.length
  | .dict es => es.length
  | _ => 0

/-- The exceptions this program can raise: the builtin ones it uses and
its own exception classes from `homework.py`. `keyError` carries the
exception argument as a value, because Python renders `str(KeyError(x))`
as `repr(x)`. -/
inductive Err where
  | typeError (msg : String)
  | keyError (arg : Value)
  | indexError (msg : String)
  | attributeError (msg : String)
  | unsuccessAnswer (a b : String)
  | totallyUnsuccessAnswer (msg : String)
  | tokenUnexisting (msg : String)
  | homeworkStatusIsUncorrect (msg : String)
  | homeworksAreAbsent (msg : String)

/-- Python `str()` of the exception, as interpolated into log lines and
chat messages. A `KeyError` renders the `repr` of its argument; an
exception constructed with two arguments renders the tuple of both. -/
def errText : Err → String
  | .typeError m => m
  | .keyError arg => arg.pyRepr
  | .indexError m => m
  | .attributeError m => m
  | .unsuccessAnswer a b => "(\x27" ++ a ++ "\x27, \x27" ++ b ++ "\x27)"
  | .totallyUnsuccessAnswer m => m
  | .tokenUnexisting m => m
  | .homeworkStatusIsUncorrect m => m
  | .homeworksAreAbsent m => m

/-- The fixed verdict table `HOMEWORK_VERDICTS` from `homework.py`. -/
def HOMEWORK_VERDICTS : List (String × String) :=
  [("approved", "Работа проверена: ревьюеру всё понравилось. Ура!"),
   ("reviewing", "Работа взята на проверку ревьюером."),
   ("rejected", "Работа проверена: у ревьюера есть замечания.")]

/-- The fixed sleep interval `RETRY_PERIOD` (seconds). -/
def RETRY_PERIOD : Nat := 600

/-- The three environment variables read at module load. -/
structure Env where
  PRACTICUM_TOKEN : Option String
  TELEGRAM_TOKEN : Option String
  TELEGRAM_CHAT_ID : Option String

/-- Python `repr` of a list of strings, used by the f-string in
`check_tokens`. -/
def pyReprStrList (l : List String) : String :=
  "[" ++ String.intercalate ", " (l.map (fun s => "\x27" ++ s ++ "\x27")) ++ "]"

/-- `check_tokens` from `homework.py`: collects the names of the missing
environment variables and raises `TokenUnexistingException` when the
collection is non-empty, otherwise returns `True`. -/
def check_tokens (env : Env) : Except Err Bool :=
  let TOKENS : List (String × Option String) :=
    [("PRACTICUM_TOKEN", env.PRACTICUM_TOKEN),
     ("TELEGRAM_TOKEN", env.TELEGRAM_TOKEN),
     ("TELEGRAM_CHAT_ID", env.TELEGRAM_CHAT_ID)]
  let FORGET_TOKENS : List String :=
    (TOKENS.filter (fun p => p.2.isNone)).map Prod.fst
  if FORGET_TOKENS.length ≠ 0 then
    .error (.tokenUnexisting
      ("Потеряны переменные окружения из этого списка "
        ++ pyReprStrList FORGET_TOKENS))
  else
    .ok true

/-- What the HTTP collaborator returned: a status code and a JSON body
(already decoded, standing for `response.json()`). -/
structure HttpResponse where
  status_code : Nat
  body : Value

/-- Outcome of the `requests.get` call: either the library raised, or an
HTTP response came back. -/
inductive FetchOutcome where
  | exn (msg : String)
  | resp (r : HttpResponse)

/-- `get_api_answer` from `homework.py`: a raising transport turns into
`TotallyUnsuccessAnswerException`, a non-200 status into
`UnsuccessAnswerException` (raised with two message arguments), and a 200
response yields the decoded body. -/
def get_api_answer (outcome : FetchOutcome) : Except Err Value :=
  match outcome with
  | .exn _ =>
      .error (.totallyUnsuccessAnswer
        ("Вообще не удалось получить ответ от API ЯП Домашка."
          ++ "Нет доступа к серверам ЯП, чтобы получить подробную ошибку"))
  | .resp r =>
      if r.status_code ≠ 200 then
        .error (.unsuccessAnswer
          "Ответ от API ЯП получен,но статус ответа не \"успешный\""
          "Это внутренняя ошибка на стороне сервера ЯП Домашка.")
      else
        .ok r.body

/-- `check_response` from `homework.py`, with the current wall-clock time
`now` (`int(time.time())`) passed explicitly. Checks run in source order:
dict shape, presence of `homeworks`, presence of `current_date`, list
shape of `homeworks`, sanity of `current_date`, and finally non-emptiness
of `homeworks`; on success the function returns `True`. -/
def check_response (response : Value) (now : Int) : Except Err Value :=
  if response.isDict = false then
    .error (.typeError "Ответ API ЯП не является словарем")
  else if response.hasKey "homeworks" = false then
    .error (.keyError (.str "В ответе API ЯП нет ключа homeworks"))
  else if response.hasKey "current_date" = false then
    .error (.keyError (.str "В ответе API ЯП нет ключа current_date"))
  else if (response.dictGet "homeworks").isList = false then
    .error (.typeError "Ответ API ЯП не в виде списка")
  else
    let current_date := response.dictGet "current_date"
    if current_date.isNoneV || !current_date.isIntLike
        || decide (current_date.asInt < 0) || decide (current_date.asInt > now) then
      .error (.typeError "API ЯП вернул некорректное время")
    else
      let homeworks := response.dictGet "homeworks"
      if homeworks.isNoneV || homeworks.lenOrZero == 0 then
        .error (.homeworksAreAbsent
          "Ответ API ЯП пришел без данных о новых домашках")
      else
        .ok (.bool true)

/-- Python `key in container`: key lookup on dicts, `==` membership on
lists, substring test on strings, `TypeError` otherwise. A string key
compares equal only to equal strings. -/
def pyContains (container : Value) (key : String) : Except Err Bool :=
  match container with
  | .dict es => .ok (es.lookup key).isSome
  | .list xs =>
      .ok (xs.any (fun x => match x with | .str s => s == key | _ => false))
  | .str s => .ok (decide (2 ≤ (s.splitOn key).length))
  | v => .error (.typeError
      ("argument of type \x27" ++ v.typeName ++ "\x27 is not iterable"))

/-- Python `v.get(k)`: dict lookup defaulting to `None`; `AttributeError`
on anything that is not a dict. -/
def pyGetAttr (v : Value) (k : String) : Except Err Value :=
  match v with
  | .dict es => .ok ((es.lookup k).getD Value.none)
  | _ => .error (.attributeError
      ("\x27" ++ v.typeName ++ "\x27 object has no attribute \x27get\x27"))

/-- Python `v.get(k, d)`: dict lookup with an explicit default;
`AttributeError` on anything that is not a dict. -/
def pyGetAttrD (v : Value) (k : String) (d : Value) : Except Err Value :=
  match v with
  | .dict es => .ok ((es.lookup k).getD d)
  | _ => .error (.attributeError
      ("\x27" ++ v.typeName ++ "\x27 object has no attribute \x27get\x27"))

/-- Python `status in HOMEWORK_VERDICTS`: hash lookup among the three
string keys; non-string hashables are simply absent, unhashable values
raise `TypeError`. -/
def pyInVerdicts (v : Value) : Except Err Bool :=
  match v with
  | .str s => .ok (HOMEWORK_VERDICTS.lookup s).isSome
  | .list _ => .error (.typeError "unhashable type: \x27list\x27")
  | .dict _ => .error (.typeError "unhashable type: \x27dict\x27")
  | _ => .ok false

/-- `parse_status` from `homework.py`: requires the `homework_name` key,
requires `status` to be a key of `HOMEWORK_VERDICTS`, then formats the
notification line with the name and the verdict text. -/
def parse_status (homework : Value) : Except Err String := do
  let hasName ← pyContains homework "homework_name"
  if hasName = false then
    throw (Err.keyError
      (.str "Ответ от API ЯП домашка не содержит ключа \"homework_name\"."))
  let statusVal ← pyGetAttr homework "status"
  let inVerdicts ← pyInVerdicts statusVal
  if inVerdicts = false then
    throw (Err.homeworkStatusIsUncorrect "У домашней работы некорректный статус.")
  let nameVal ← pyGetAttr homework "homework_name"
  let verdict : Value :=
    match statusVal with
    | .str s => ((HOMEWORK_VERDICTS.lookup s).map Value.str).getD Value.none
    | _ => Value.none
  pure ("Изменился статус проверки работы \"" ++ nameVal.pyStr ++ "\". "
    ++ verdict.pyStr)

/-- A log line: level and message text. -/
inductive LogLevel where
  | debug | info | error | critical
deriving DecidableEq

/-- One emitted log record. -/
structure LogEntry where
  level : LogLevel
  msg : String
deriving DecidableEq

/-- `send_message` from `homework.py`, with the chat collaborator's
behaviour supplied as the delivery outcome of `bot.send_message`. The
whole body is wrapped in try/except over `Exception`, so the function
itself never raises: its result is always `ok`, carrying the log lines
it produced. -/
def send_message (delivery : Except String Unit) : Except String (List LogEntry) :=
  match delivery with
  | .ok _ => .ok [⟨.debug, "Сообщение отправлено"⟩]
  | .error err => .ok [⟨.error, err⟩]

/-- The mutable state the driver loop carries between iterations:
`timestamp` (a Python value, because the code assigns whatever
`response.get('current_date', timestamp)` yields) and the last failure
message sent to the chat (`mistake_info_send_to_bot`, initially `None`). -/
structure LoopState where
  timestamp : Value
  mistake_info_send_to_bot : Option String

/-- Python `v[0]`: head of a list, first character of a string, key lookup
on dicts (the key `0` is absent from these string-keyed dicts), and a
`TypeError` on anything unsubscriptable. -/
def subscript0 (v : Value) : Except Err Value :=
  match v with
  | .list [] => .error (.indexError "list index out of range")
  | .list (h :: _) => .ok h
  | .str s =>
      match s.data with
      | [] => .error (.indexError "string index out of range")
      | c :: _ => .ok (.str (String.mk [c]))
  | .dict _ => .error (.keyError (.int 0))
  | v => .error (.typeError
      ("\x27" ++ v.typeName ++ "\x27 object is not subscriptable"))

/-- The `try:` body of one iteration of `main`: fetch, validate, and when
validation returns a truthy value, take the first homework, parse it, log
at info level and hand the message to the Notifier; finally compute the
new `timestamp` from `response.get('current_date', timestamp)`. Returns
the new timestamp together with the messages handed to the Notifier and
the log lines `main` itself emitted; any raised exception propagates. -/
def try_body (st : LoopState) (outcome : FetchOutcome) (now : Int) :
    Except Err (Value × List String × List LogEntry) := do
  let response ← get_api_answer outcome
  let ok ← check_response response now
  let (sent, logs) ←
    if ok.truthy then do
      let hwList ← pyGetAttr response "homeworks"
      let homework ← subscript0 hwList
      let message ← parse_status homework
      pure ([message], [LogEntry.mk .info ("Есть обновление " ++ message)])
    else
      pure ([], [])
  let newTs ← pyGetAttrD response "current_date" st.timestamp
  pure (newTs, sent, logs)

/-- The observable effect of one pass through the `while True:` loop of
`main`: the successor state, the messages handed to the Notifier, the log
lines emitted by `main`, and the seconds slept in the `finally:` clause. -/
structure IterResult where
  state : LoopState
  sent : List String
  logs : List LogEntry
  slept : Nat

/-- One iteration of the `while True:` loop of `main`: run the try body;
a `HomeworksAreAbsentException` is logged at debug level and swallowed;
any other exception is logged at error level, formatted as
`Сбой в работе программы: ...` and handed to the Notifier only when the
text differs from the last failure message sent; the `finally:` clause
sleeps `RETRY_PERIOD` seconds on every path. -/
def main_iteration (st : LoopState) (outcome : FetchOutcome) (now : Int) :
    IterResult :=
  match try_body st outcome now with
  | .ok (newTs, sent, logs) =>
      ⟨⟨newTs, st.mistake_info_send_to_bot⟩, sent, logs, RETRY_PERIOD⟩
  | .error (.homeworksAreAbsent m) =>
      ⟨st, [], [⟨.debug, m⟩], RETRY_PERIOD⟩
  | .error e =>
      let message := "Сбой в работе программы: " ++ errText e
      if some message ≠ st.mistake_info_send_to_bot then
        ⟨⟨st.timestamp, some message⟩, [message], [⟨.error, errText e⟩],
          RETRY_PERIOD⟩
      else
        ⟨st, [], [⟨.error, errText e⟩], RETRY_PERIOD⟩

/-- How startup of `main` ends: either the process terminates through
`sys.exit` with the given status code, or execution reaches the
`while True:` loop. -/
inductive StartupResult where
  | exit (code : Nat) (logs : List LogEntry)
  | enterLoop

/-- The exit status, when startup terminated the process. -/
def StartupResult.exitCode : StartupResult → Option Nat
  | .exit c _ => some c
  | .enterLoop => none

/-- The startup section of `main`: `check_tokens()` inside try/except; a
`TokenUnexistingException` is logged at critical level and the process
exits via the bare `sys.exit()`, whose exit status is 0. On success the
`while True:` loop is entered. -/
def main_startup (env : Env) : StartupResult :=
  match check_tokens env with
  | .ok _ => .enterLoop
  | .error e => .exit 0 [⟨.critical, errText e⟩]

/-- The `UnsuccessAnswerException` raised by `get_api_answer` on a non-200
status, with both message arguments from the source. -/
def unsuccessErr : Err :=
  .unsuccessAnswer
    "Ответ от API ЯП получен,но статус ответа не \"успешный\""
    "Это внутренняя ошибка на стороне сервера ЯП Домашка."

/-- The chat failure message the driver builds from that exception. -/
def fetchFailMessage : String := "Сбой в работе программы: " ++ errText unsuccessErr

/-- A well-formed response whose `homeworks` list is empty makes
`check_response` raise `HomeworksAreAbsentException`. -/
theorem check_response_empty_raises (r : Value) (now cd : Int)
    (hdict : r.isDict = true)
    (hk1 : r.hasKey "homeworks" = true)
    (hk2 : r.hasKey "current_date" = true)
    (hh : r.dictGet "homeworks" = .list [])
    (hcd : r.dictGet "current_date" = .int cd)
    (h0 : 0 ≤ cd) (hnow : cd ≤ now) :
    check_response r now =
      .error (.homeworksAreAbsent "Ответ API ЯП пришел без данных о новых домашках") := by
  have hc1 : decide (cd < 0) = false := by simp; omega
  have hc2 : decide (cd > now) = false := by simp; omega
  simp [check_response, hdict, hk1, hk2, hh, hcd, hc1, hc2,
    Value.isList, Value.isNoneV, Value.isIntLike, Value.asInt, Value.lenOrZero]

/-- A non-200 HTTP status makes `get_api_answer` raise
`UnsuccessAnswerException`. -/
theorem get_api_answer_nonok (code : Nat) (body : Value) (hcode : code ≠ 200) :
    get_api_answer (.resp ⟨code, body⟩) = .error unsuccessErr := by
  simp [get_api_answer, hcode, unsuccessErr]

/-- On a non-200 fetch with a last-sent text differing from the failure
message, the iteration sends the failure message, records it as last
sent, leaves the timestamp alone, and sleeps the fixed interval. -/
theorem iter_unsuccess_send (st : LoopState) (body : Value) (code : Nat) (now : Int)
    (hcode : code ≠ 200)
    (hdedup : some fetchFailMessage ≠ st.mistake_info_send_to_bot) :
    main_iteration st (.resp ⟨code, body⟩) now =
      ⟨⟨st.timestamp, some fetchFailMessage⟩, [fetchFailMessage],
        [⟨.error, errText unsuccessErr⟩], RETRY_PERIOD⟩ := by
  have hg := get_api_answer_nonok code body hcode
  simp only [fetchFailMessage, unsuccessErr] at hdedup
  simp [main_iteration, try_body, hg, unsuccessErr, fetchFailMessage,
    Bind.bind, Except.bind, hdedup]

/-- On a non-200 fetch whose failure message equals the last-sent text,
the iteration sends nothing and leaves the state unchanged. -/
theorem iter_unsuccess_suppress (st : LoopState) (body : Value) (code : Nat) (now : Int)
    (hcode : code ≠ 200)
    (heq : st.mistake_info_send_to_bot = some fetchFailMessage) :
    main_iteration st (.resp ⟨code, body⟩) now =
      ⟨st, [], [⟨.error, errText unsuccessErr⟩], RETRY_PERIOD⟩ := by
  have hg := get_api_answer_nonok code body hcode
  simp only [fetchFailMessage, unsuccessErr] at heq
  simp [main_iteration, try_body, hg, unsuccessErr, fetchFailMessage,
    Bind.bind, Except.bind, heq]

/-- Claim C1 (amended): when the fetched response is a mapping with both
keys, a valid `current_date` and an EMPTY `homeworks` list, the no-new-work
condition is raised and logged at debug level, nothing is sent, the loop
sleeps the fixed interval — but the poll cursor is NOT advanced to the
response's `current_date`: the exception raised inside `check_response`
skips the `timestamp = response.get('current_date', timestamp)` statement,
so the next cycle fetches with the unchanged timestamp. -/
theorem C1_empty_homeworks_cursor_unchanged (st : LoopState) (r : Value)
    (now cd : Int)
    (hdict : r.isDict = true)
    (hk1 : r.hasKey "homeworks" = true)
    (hk2 : r.hasKey "current_date" = true)
    (hh : r.dictGet "homeworks" = .list [])
    (hcd : r.dictGet "current_date" = .int cd)
    (h0 : 0 ≤ cd) (hnow : cd ≤ now) :
    main_iteration st (.resp ⟨200, r⟩) now =
      ⟨st, [], [⟨.debug, "Ответ API ЯП пришел без данных о новых домашках"⟩],
        RETRY_PERIOD⟩ := by
  have hc := check_response_empty_raises r now cd hdict hk1 hk2 hh hcd h0 hnow
  simp [main_iteration, try_body, get_api_answer, hc, Bind.bind, Except.bind]

/-- Claim C1, witness: a concrete empty-homeworks cycle leaves the full
loop state unchanged. -/
theorem C1_witness :
    main_iteration ⟨.int 50, Option.none⟩
        (.resp ⟨200, .dict [("homeworks", .list []), ("current_date", .int 100)]⟩) 200 =
      ⟨⟨.int 50, Option.none⟩, [],
        [⟨.debug, "Ответ API ЯП пришел без данных о новых домашках"⟩], RETRY_PERIOD⟩ :=
  C1_empty_homeworks_cursor_unchanged _ _ 200 100 rfl rfl rfl rfl rfl
    (by decide) (by decide)

/-- Claim C1, counterexample to the claim as stated: on a response with an
empty `homeworks` list and `current_date` 100, the no-new-work condition
is raised and logged at debug level, yet the cursor stays at its old value
50 instead of advancing to 100. -/
theorem C1_counterexample :
    (main_iteration ⟨.int 50, Option.none⟩
        (.resp ⟨200, .dict [("homeworks", .list []), ("current_date", .int 100)]⟩)
        200).logs =
      [⟨.debug, "Ответ API ЯП пришел без данных о новых домашках"⟩] ∧
    (main_iteration ⟨.int 50, Option.none⟩
        (.resp ⟨200, .dict [("homeworks", .list []), ("current_date", .int 100)]⟩)
        200).state.timestamp = .int 50 ∧
    (main_iteration ⟨.int 50, Option.none⟩
        (.resp ⟨200, .dict [("homeworks", .list []), ("current_date", .int 100)]⟩)
        200).state.timestamp ≠ .int 100 := by
  refine ⟨rfl, rfl, ?_⟩
  intro h
  rw [show (main_iteration ⟨.int 50, Option.none⟩
      (.resp ⟨200, .dict [("homeworks", .list []), ("current_date", .int 100)]⟩)
      200).state.timestamp = Value.int 50 from rfl] at h
  exact absurd (Value.int.inj h) (by decide)

/-- Claim C2: a dict response lacking the `homeworks` key or lacking the
`current_date` key makes `check_response` raise a `KeyError`; the two keys
are checked independently by separate statements, so a response that has
`homeworks` but lacks `current_date` is also rejected. -/
theorem C2_missing_key (r : Value) (now : Int)
    (hdict : r.isDict = true)
    (hmiss : r.hasKey "homeworks" = false ∨ r.hasKey "current_date" = false) :
    ∃ m, check_response r now = .error (.keyError (.str m)) := by
  rcases hmiss with h | h
  · exact ⟨"В ответе API ЯП нет ключа homeworks", by simp [check_response, hdict, h]⟩
  · by_cases hhw : r.hasKey "homeworks" = false
    · exact ⟨"В ответе API ЯП нет ключа homeworks", by simp [check_response, hdict, hhw]⟩
    · have hhw2 : r.hasKey "homeworks" = true := by
        cases hb : r.hasKey "homeworks" with
        | true => rfl
        | false => exact absurd hb hhw
      exact ⟨"В ответе API ЯП нет ключа current_date",
        by simp [check_response, hdict, hhw2, h]⟩

/-- Claim C2, witness: a dict holding only `current_date` is rejected with
a `KeyError` even though its first-checked key is the missing one. -/
theorem C2_witness :
    ∃ m, check_response (.dict [("current_date", .int 5)]) 100 =
      .error (.keyError (.str m)) :=
  C2_missing_key _ 100 rfl (Or.inl rfl)

/-- Claim C3: when the fetch returns a non-200 status and the failure text
differs from the last-sent one, the iteration raises the server-failure
error, hands the chat exactly one failure notice that contains the error
text, leaves the cursor unchanged, and sleeps the fixed 600-second
interval before the next try. -/
theorem C3_fetch_failure_reported (st : LoopState) (body : Value) (code : Nat)
    (now : Int) (hcode : code ≠ 200)
    (hdedup : some fetchFailMessage ≠ st.mistake_info_send_to_bot) :
    main_iteration st (.resp ⟨code, body⟩) now =
      ⟨⟨st.timestamp, some fetchFailMessage⟩, [fetchFailMessage],
        [⟨.error, errText unsuccessErr⟩], RETRY_PERIOD⟩ ∧
    fetchFailMessage = "Сбой в работе программы: " ++ errText unsuccessErr ∧
    RETRY_PERIOD = 600 :=
  ⟨iter_unsuccess_send st body code now hcode hdedup, rfl, rfl⟩

/-- Claim C3, witness: a concrete 503 cycle sends one failure notice and
keeps the timestamp. -/
theorem C3_witness :
    main_iteration ⟨.int 0, Option.none⟩ (.resp ⟨503, .none⟩) 0 =
      ⟨⟨.int 0, some fetchFailMessage⟩, [fetchFailMessage],
        [⟨.error, errText unsuccessErr⟩], RETRY_PERIOD⟩ :=
  (C3_fetch_failure_reported ⟨.int 0, Option.none⟩ .none 503 0 (by decide)
    (Option.some_ne_none fetchFailMessage)).1

/-- Claim C4: two consecutive failing iterations produce the same failure
text, and the chat is notified exactly once — the first iteration sends
the message (it differs from the last-sent text), the second iteration
suppresses the identical message. -/
theorem C4_dedup_exactly_once (st : LoopState) (b1 b2 : Value) (c1 c2 : Nat)
    (n1 n2 : Int) (h1 : c1 ≠ 200) (h2 : c2 ≠ 200)
    (hdedup : some fetchFailMessage ≠ st.mistake_info_send_to_bot) :
    (main_iteration st (.resp ⟨c1, b1⟩) n1).sent = [fetchFailMessage] ∧
    (main_iteration (main_iteration st (.resp ⟨c1, b1⟩) n1).state
        (.resp ⟨c2, b2⟩) n2).sent = [] := by
  have e1 := iter_unsuccess_send st b1 c1 n1 h1 hdedup
  constructor
  · rw [e1]
  · rw [e1, iter_unsuccess_suppress _ b2 c2 n2 h2 rfl]

/-- Claim C4, witness: two concrete consecutive 503 cycles notify the chat
exactly once. -/
theorem C4_witness :
    (main_iteration ⟨.int 0, Option.none⟩ (.resp ⟨503, .none⟩) 0).sent =
      [fetchFailMessage] ∧
    (main_iteration (main_iteration ⟨.int 0, Option.none⟩ (.resp ⟨503, .none⟩) 0).state
        (.resp ⟨503, .none⟩) 0).sent = [] :=
  C4_dedup_exactly_once ⟨.int 0, Option.none⟩ .none .none 503 503 0 0
    (by decide) (by decide) (Option.some_ne_none fetchFailMessage)

/-- Claim C5: a record with `homework_name` and status `approved` parses
to exactly the formatted line with the name interpolated and the verdict
text looked up for `approved` in the fixed `HOMEWORK_VERDICTS` table. -/
theorem C5_roundtrip (name : String) :
    parse_status (.dict [("homework_name", .str name), ("status", .str "approved")]) =
      .ok ("Изменился статус проверки работы \"" ++ name ++ "\". "
        ++ "Работа проверена: ревьюеру всё понравилось. Ура!") ∧
    HOMEWORK_VERDICTS.lookup "approved" =
      some "Работа проверена: ревьюеру всё понравилось. Ура!" :=
  ⟨rfl, rfl⟩

/-- Claim C5, witness: the round trip at the concrete name X. -/
theorem C5_witness :
    parse_status (.dict [("homework_name", .str "X"), ("status", .str "approved")]) =
      .ok ("Изменился статус проверки работы \"" ++ "X" ++ "\". "
        ++ "Работа проверена: ревьюеру всё понравилось. Ура!") :=
  (C5_roundtrip "X").1

/-- Claim C6 (amended): a response passing every check — a dict with both
keys, a non-empty `homeworks` list, and an integer `current_date` within
`[0, now]` — validates successfully, but `check_response` returns the
boolean `True`, not the response object (the caller keeps using its own
reference to the response). -/
theorem C6_valid_response_returns_true (r : Value) (now cd : Int) (hws : List Value)
    (hdict : r.isDict = true)
    (hk1 : r.hasKey "homeworks" = true)
    (hk2 : r.hasKey "current_date" = true)
    (hh : r.dictGet "homeworks" = .list hws)
    (hne : hws ≠ [])
    (hcd : r.dictGet "current_date" = .int cd)
    (h0 : 0 ≤ cd) (hnow : cd ≤ now) :
    check_response r now = .ok (.bool true) := by
  have hc1 : decide (cd < 0) = false := by simp; omega
  have hc2 : decide (cd > now) = false := by simp; omega
  have hc3 : (hws.length == 0) = false := by
    cases hws with
    | nil => exact absurd rfl hne
    | cons a t => rfl
  simp [check_response, hdict, hk1, hk2, hh, hcd, hc1, hc2, hc3,
    Value.isList, Value.isNoneV, Value.isIntLike, Value.asInt, Value.lenOrZero]

/-- Claim C6, witness: a concrete fully valid response validates to
`ok True`. -/
theorem C6_witness :
    check_response (.dict [("homeworks", .list [.str "hw"]), ("current_date", .int 7)]) 9 =
      .ok (.bool true) :=
  C6_valid_response_returns_true _ 9 7 [.str "hw"] rfl rfl rfl rfl (by simp) rfl
    (by decide) (by decide)

/-- Claim C6, counterexample to the claim as stated: on a concrete fully
valid response the function returns `ok True`, which is not the validated
response itself. -/
theorem C6_counterexample :
    check_response (.dict [("homeworks", .list [.int 7]), ("current_date", .int 100)]) 200 =
      .ok (.bool true) ∧
    check_response (.dict [("homeworks", .list [.int 7]), ("current_date", .int 100)]) 200 ≠
      .ok (.dict [("homeworks", .list [.int 7]), ("current_date", .int 100)]) := by
  have h0 : check_response
      (.dict [("homeworks", .list [.int 7]), ("current_date", .int 100)]) 200 =
      .ok (.bool true) := rfl
  refine ⟨h0, ?_⟩
  intro h
  exact Value.noConfusion (Except.ok.inj (h0.symm.trans h))

/-- Claim C7: parsing a homework record whose `status` value is not one of
the three recognized verdicts (absent, non-string, or an unrecognized
string) fails with `HomeworkStatusIsUncorrectException`, and a record
without the `homework_name` key fails with a `KeyError`. -/
theorem C7_parse_status_rejects :
    (∀ hw : Value, hw.isDict = true → hw.hasKey "homework_name" = true →
      pyInVerdicts (hw.dictGet "status") = .ok false →
      parse_status hw =
        .error (.homeworkStatusIsUncorrect "У домашней работы некорректный статус.")) ∧
    (∀ hw : Value, hw.isDict = true → hw.hasKey "homework_name" = false →
      parse_status hw =
        .error (.keyError
          (.str "Ответ от API ЯП домашка не содержит ключа \"homework_name\"."))) := by
  constructor
  · intro hw hd hn hst
    cases hw with
    | dict es =>
      simp only [Value.hasKey] at hn
      simp only [Value.dictGet] at hst
      simp [parse_status, pyContains, pyGetAttr, hn, hst, Bind.bind, Except.bind,
        throw, throwThe, MonadExceptOf.throw, pure, Except.pure]
    | none => simp [Value.isDict] at hd
    | bool b => simp [Value.isDict] at hd
    | int n => simp [Value.isDict] at hd
    | str s => simp [Value.isDict] at hd
    | list l => simp [Value.isDict] at hd
  · intro hw hd hn
    cases hw with
    | dict es =>
      simp only [Value.hasKey] at hn
      simp [parse_status, pyContains, hn, Bind.bind, Except.bind,
        throw, throwThe, MonadExceptOf.throw, pure, Except.pure]
    | none => simp [Value.isDict] at hd
    | bool b => simp [Value.isDict] at hd
    | int n => simp [Value.isDict] at hd
    | str s => simp [Value.isDict] at hd
    | list l => simp [Value.isDict] at hd

/-- Claim C7, witness: a record with an unrecognized status string fails
with the unknown-status error, and a record without a name fails with the
missing-key error. -/
theorem C7_witness :
    parse_status (.dict [("homework_name", .str "HW1"), ("status", .str "weird")]) =
      .error (.homeworkStatusIsUncorrect "У домашней работы некорректный статус.") ∧
    parse_status (.dict [("status", .str "approved")]) =
      .error (.keyError
        (.str "Ответ от API ЯП домашка не содержит ключа \"homework_name\".")) :=
  ⟨C7_parse_status_rejects.1 _ rfl rfl rfl, C7_parse_status_rejects.2 _ rfl rfl⟩

/-- Claim C8 (amended): when any of the three credentials is missing,
startup logs a critical-level message and terminates immediately without
entering the poll loop — but through the bare `sys.exit()`, whose exit
status is 0 (a success code), not a non-zero one. -/
theorem C8_missing_token_exits_zero (env : Env)
    (h : env.PRACTICUM_TOKEN = none ∨ env.TELEGRAM_TOKEN = none ∨
      env.TELEGRAM_CHAT_ID = none) :
    ∃ msg, main_startup env = .exit 0 [⟨.critical, msg⟩] := by
  obtain ⟨p, t, c⟩ := env
  cases p <;> cases t <;> cases c <;>
    first
      | exact ⟨_, rfl⟩
      | (rcases h with h | h | h <;> simp_all)

/-- Claim C8, witness: with the bot token missing, startup exits with
status 0 after one critical log line. -/
theorem C8_witness :
    ∃ msg, main_startup ⟨some "P", Option.none, some "C"⟩ =
      .exit 0 [⟨.critical, msg⟩] :=
  C8_missing_token_exits_zero _ (Or.inr (Or.inl rfl))

/-- Claim C8, counterexample to the claim as stated: with the first
credential missing, the process terminates, but its exit status is 0 —
there is no non-zero exit code. -/
theorem C8_counterexample :
    (main_startup ⟨Option.none, some "T", some "C"⟩).exitCode = some 0 ∧
    ¬ ∃ c : Nat, c ≠ 0 ∧
      (main_startup ⟨Option.none, some "T", some "C"⟩).exitCode = some c := by
  have h0 : (main_startup ⟨Option.none, some "T", some "C"⟩).exitCode =
      some 0 := rfl
  refine ⟨h0, ?_⟩
  rintro ⟨c, hc, h⟩
  exact hc (Option.some.inj (h0.symm.trans h)).symm

/-- Claim C9: the notifier swallows every delivery failure — whatever the
outcome of `bot.send_message`, `send_message` returns normally, and on a
failure it logs the error at error level instead of propagating it. -/
theorem C9_send_failure_swallowed :
    (∀ d : Except String Unit, ∃ logs, send_message d = .ok logs) ∧
    (∀ m : String, send_message (.error m) = .ok [⟨.error, m⟩]) := by
  constructor
  · intro d
    cases d with
    | ok u => exact ⟨_, rfl⟩
    | error m => exact ⟨_, rfl⟩
  · intro m
    rfl

/-- Claim C9, witness: a concrete failing delivery is swallowed and logged. -/
theorem C9_witness :
    send_message (.error "boom") = .ok [⟨.error, "boom"⟩] :=
  C9_send_failure_swallowed.2 "boom"

/-- Claim C10: whenever `check_response` returns normally, the response's
`homeworks` value is a non-empty list, so the driver's
`response.get('homeworks')[0]` access succeeds: the `get` yields the list
and the `[0]` subscript yields its first element. -/
theorem C10_validated_homeworks_nonempty (r : Value) (now : Int) (v : Value)
    (h : check_response r now = .ok v) :
    ∃ hw rest, pyGetAttr r "homeworks" = .ok (.list (hw :: rest)) ∧
      subscript0 (.list (hw :: rest)) = .ok hw := by
  simp only [check_response] at h
  split at h
  · exact absurd h (by simp)
  split at h
  · exact absurd h (by simp)
  split at h
  · exact absurd h (by simp)
  split at h
  · exact absurd h (by simp)
  split at h
  · exact absurd h (by simp)
  split at h
  · exact absurd h (by simp)
  next hd hk1 hk2 hlist hdate hlen =>
    cases r with
    | dict es =>
      cases hhw : Value.dictGet (.dict es) "homeworks" with
      | list hws =>
        cases hws with
        | nil =>
          rw [hhw] at hlen
          simp [Value.isNoneV, Value.lenOrZero] at hlen
        | cons a t =>
          refine ⟨a, t, ?_, rfl⟩
          simp only [pyGetAttr]
          simp only [Value.dictGet] at hhw
          rw [hhw]
      | none => rw [hhw] at hlist; simp [Value.isList] at hlist
      | bool b => rw [hhw] at hlist; simp [Value.isList] at hlist
      | int n => rw [hhw] at hlist; simp [Value.isList] at hlist
      | str s => rw [hhw] at hlist; simp [Value.isList] at hlist
      | dict d => rw [hhw] at hlist; simp [Value.isList] at hlist
    | none => simp [Value.isDict] at hd
    | bool b => simp [Value.isDict] at hd
    | int n => simp [Value.isDict] at hd
    | str s => simp [Value.isDict] at hd
    | list l => simp [Value.isDict] at hd

/-- Claim C10, witness: on a concrete validated response the first-element
access is in bounds. -/
theorem C10_witness :
    ∃ hw rest,
      pyGetAttr (.dict [("homeworks", .list [.int 7]), ("current_date", .int 100)])
        "homeworks" = .ok (.list (hw :: rest)) ∧
      subscript0 (.list (hw :: rest)) = .ok hw :=
  C10_validated_homeworks_nonempty
    (.dict [("homeworks", .list [.int 7]), ("current_date", .int 100)]) 200
    (.bool true) rfl
